import Mathlib

/-!
# Verification of the `panlog` rotating log writer (`logrotate.go`)

This file is a shallow embedding of the rotation engine of the `panlog`
repository (`src/logrotate.go`) together with proofs about it.

Modelling conventions:

* Wall-clock instants (file modification times, the `time.Now()` read in
  `cleanup`) are integers (nanoseconds since an epoch); durations such as
  `maxAge` are integers in the same unit.  `time.Now().Truncate(24*time.Hour)`
  values (the daily-rotation reference points) are modelled as integer day
  indices; Go's `Time.After` on two such truncated values is integer `>`.
* Go strings are Lean `String`s; the byte-level operations of
  `path/filepath` and `strings` used by the code (`filepath.Ext`,
  `strings.TrimSuffix`, `strings.HasSuffix`) are re-implemented on the
  character list underlying a `String`, following the Go implementations.
* Filesystem effects are made explicit: every operation that touches the
  filesystem takes an `OsEnv` describing the outcomes the operating system
  would produce (success/failure of each call, `stat` results, the list a
  glob returns), and additionally returns the list of filesystem actions
  (`FsAct`) that actually took place, in order.  This trace is how
  properties such as "the active file was reopened" or "no bytes were
  appended" are stated.
* `os.File` is modelled by `FileHandle`, which records the one piece of
  state the claims depend on: whether the handle has been closed.  Go's
  `os.File` tracks this internally and deterministically returns
  `os.ErrClosed` from `Write`/`Close` on an already-closed handle, without
  touching the filesystem; the model does the same.  A first `Close` marks
  the handle closed whether or not the underlying system call succeeds,
  as `os.File.Close` does.
* Errors are the inductive `GoErr`; `fmt.Errorf("...: %w", err)` wrapping
  in `rotate` is modelled by the wrapping constructors.
-/

namespace Panlog

/-- A calendar timestamp with one-second resolution, as used by
`time.Now().Format("2006-01-02-150405")` in `generateRotatedName`. -/
structure DateTime where
  year : Nat
  month : Nat
  day : Nat
  hour : Nat
  minute : Nat
  second : Nat
deriving Repr, DecidableEq

/-- Errors produced by the rotator.  `ioErr` stands for an arbitrary
operating-system error (with a label for which call produced it);
`errClosed` is `os.ErrClosed`, returned deterministically by operations on
an already-closed `os.File`; `errInvalid` is `os.ErrInvalid`, returned by
methods on a nil `*os.File`.  The `*Failed` constructors model the
`fmt.Errorf("failed to ...: %w", err)` wrappers in `rotate` and
`NewLogRotator`. -/
inductive GoErr where
  | errClosed
  | errInvalid
  | ioErr (op : String)
  | configErr
  | mkdirFailed
  | closeFailed (e : GoErr)
  | renameFailed (e : GoErr)
  | compressFailed (e : GoErr)
  | cleanupFailed (e : GoErr)
  | openFailed (e : GoErr)
  | badName
deriving Repr, DecidableEq

/-- `true` exactly when the error is `os.ErrClosed` or a wrapper around it:
an error indicating an operation attempted on an already-closed file. -/
def GoErr.isClosedRooted : GoErr → Bool
  | .errClosed => true
  | .closeFailed e => e.isClosedRooted
  | .renameFailed e => e.isClosedRooted
  | .compressFailed e => e.isClosedRooted
  | .cleanupFailed e => e.isClosedRooted
  | .openFailed e => e.isClosedRooted
  | _ => false

/-- A filesystem action that actually took place (failed attempts that left
the filesystem unchanged are not recorded). -/
inductive FsAct where
  /-- the active file handle was closed -/
  | closeA
  /-- `os.Rename src dst` succeeded -/
  | renameA (src dst : String)
  /-- `os.Create path` succeeded (the gzip output file) -/
  | createA (path : String)
  /-- `os.Remove path` succeeded -/
  | removeA (path : String)
  /-- the active file at `path` was opened (append/create mode) -/
  | openA (path : String)
  /-- `n` bytes were appended to the active file by `file.Write` -/
  | writeA (n : Nat)
deriving Repr, DecidableEq

/-- The state of an `os.File` handle that the claims depend on: whether it
has been closed.  Go's `os.File` records this and returns `os.ErrClosed`
from any further `Write`/`Close`. -/
structure FileHandle where
  closed : Bool
deriving Repr, DecidableEq

/-- A glob match together with its modification time, as collected by
`cleanup` (`files []struct{ path string; modTime time.Time }`). -/
structure FileInfo where
  path : String
  modTime : Int
deriving Repr, DecidableEq

/-- The outcomes the operating system produces during one rotator call.
Each field corresponds to one system call site in `logrotate.go`; the
functions below consult these fields in program order. -/
structure OsEnv where
  /-- `time.Now().Truncate(24*time.Hour)` in `checkRotation`, as a day index -/
  nowDay : Int
  /-- `time.Now()` in `generateRotatedName` -/
  nameTime : DateTime
  /-- `time.Now()` in `cleanup` -/
  cleanupNow : Int
  /-- whether the underlying close system call of the active file succeeds -/
  closeOk : Bool
  /-- whether `os.Rename(lr.filePath, rotatedName)` succeeds -/
  renameOk : Bool
  /-- whether `os.Open(filename)` in `compressFile` succeeds -/
  srcOpenOk : Bool
  /-- whether `os.Create(filename + ".gz")` in `compressFile` succeeds -/
  createOk : Bool
  /-- whether the `io.Copy` through the gzip writer succeeds -/
  copyOk : Bool
  /-- whether `os.Remove(filename)` at the end of `compressFile` succeeds -/
  removeGzOk : Bool
  /-- result of `filepath.Glob(pattern)` in `cleanup`: the matched paths,
  or `none` for a `filepath.ErrBadPattern` error -/
  globResult : Option (List String)
  /-- result of `os.Stat(match)` in `cleanup`: the modification time, or
  `none` when the stat fails (such entries are skipped) -/
  statResult : String → Option Int
  /-- whether `os.Remove(file.path)` in `cleanup` succeeds for a path -/
  removeOk : String → Bool
  /-- result of `os.OpenFile` + `file.Stat()` in `openFile`: the current
  size of the file at the path, or `none` when either call fails -/
  openResult : Option Int
  /-- number of bytes `lr.file.Write(p)` actually appends (when the handle
  is open; at most the requested length) -/
  writeN : Nat
  /-- error returned by `lr.file.Write(p)` (when the handle is open);
  `none` means the write fully succeeded -/
  writeErr : Option GoErr
  /-- whether `os.MkdirAll(dir, 0755)` in `NewLogRotator` succeeds -/
  mkdirOk : Bool

/-- The mutable state of a `LogRotator` (the fields of the Go struct,
minus the mutex, which only serializes calls and has no effect on the
sequential semantics modelled here). -/
structure RotatorState where
  filePath : String
  maxSize : Int
  maxAge : Int
  maxBackups : Int
  compress : Bool
  rotateDaily : Bool
  /-- `rotateTime`, a day index: `time.Now().Truncate(24*time.Hour)` at
  construction, advanced by `checkRotation` -/
  rotateTime : Int
  file : Option FileHandle
  fileSize : Int
deriving Repr, DecidableEq

/-- `LogRotatorConfig`. -/
structure LogRotatorConfig where
  filePath : String
  maxSize : Int
  maxAge : Int
  maxBackups : Int
  compress : Bool
  rotateDaily : Bool
deriving Repr, DecidableEq

/-! ## String helpers (`path/filepath`, `strings`) -/

/-- Helper for `goExt`: scan the reversed character list of a path; `acc`
holds the characters already passed over, in forward order.  Stops at the
first `.` (returning the extension including the dot) or at the first path
separator or the start of the string (returning the empty list), exactly
like the loop in Go's `filepath.Ext`. -/
def extFromRev (acc : List Char) : List Char → List Char
  | [] => []
  | c :: rest =>
    if c = '/' then []
    else if c = '.' then c :: acc
    else extFromRev (c :: acc) rest

/-- Go's `filepath.Ext`: the suffix beginning at the final dot in the final
slash-separated element of `path`; empty if there is no dot. -/
def goExt (path : String) : String :=
  String.mk (extFromRev [] path.data.reverse)

/-- Go's `strings.HasSuffix`. -/
def hasSuffix (s suffix : String) : Bool :=
  decide (suffix.data.length ≤ s.data.length) &&
    decide (s.data.drop (s.data.length - suffix.data.length) = suffix.data)

/-- Go's `strings.TrimSuffix`. -/
def trimSuffix (s suffix : String) : String :=
  if hasSuffix s suffix then String.mk (s.data.take (s.data.length - suffix.data.length))
  else s

/-- Zero-pad a number to two digits, as Go's time layout components
`01`, `02`, `15`, `04`, `05` do. -/
def pad2 (n : Nat) : String :=
  if n < 10 then "0" ++ toString n else toString n

/-- Format a year as Go's `2006` layout component does (four digits for the
years that occur in practice). -/
def pad4 (n : Nat) : String :=
  if n < 10 then "000" ++ toString n
  else if n < 100 then "00" ++ toString n
  else if n < 1000 then "0" ++ toString n
  else toString n

/-- `now.Format("2006-01-02-150405")`: `YYYY-MM-DD-HHMMSS`. -/
def formatTimestamp (t : DateTime) : String :=
  pad4 t.year ++ "-" ++ pad2 t.month ++ "-" ++ pad2 t.day ++ "-" ++
    pad2 t.hour ++ pad2 t.minute ++ pad2 t.second

/-- `generateRotatedName`: `fmt.Sprintf("%s-%s%s", base, timestamp, ext)`
where `ext := filepath.Ext(lr.filePath)` and
`base := strings.TrimSuffix(lr.filePath, ext)`. -/
def generateRotatedName (filePath : String) (now : DateTime) : String :=
  let ext := goExt filePath
  let base := trimSuffix filePath ext
  base ++ "-" ++ formatTimestamp now ++ ext

/-! ## Operations -/

/-- `os.File.Close` on the handle: a first close marks the handle closed
(whatever the underlying system call returns, as `os.File.Close` does) and
returns the system call's outcome; closing an already-closed handle
returns `os.ErrClosed` and touches nothing. -/
def closeHandle (f : FileHandle) (env : OsEnv) : FileHandle × Option GoErr × List FsAct :=
  if f.closed then (f, some .errClosed, [])
  else if env.closeOk then (⟨true⟩, none, [.closeA])
  else (⟨true⟩, some (.ioErr "close"), [.closeA])

/-- `openFile`: `os.OpenFile(lr.filePath, O_CREATE|O_WRONLY|O_APPEND, 0644)`
followed by `file.Stat()`.  On success the handle and tracked size are
replaced (`lr.file = file; lr.fileSize = stat.Size()`); on failure of
either call the state is unchanged and an error is returned (a stat
failure also closes the fresh handle, so no open handle is retained). -/
def openFile (s : RotatorState) (env : OsEnv) : RotatorState × Option GoErr × List FsAct :=
  match env.openResult with
  | none => (s, some (.openFailed (.ioErr "open")), [])
  | some sz => ({ s with file := some ⟨false⟩, fileSize := sz }, none, [.openA s.filePath])

/-- `compressFile`: skip when the name already ends in `".gz"`; otherwise
open the source, create `filename + ".gz"`, copy through a gzip writer,
and remove the original.  Each step's failure is returned as the error;
the `.gz` file exists once `os.Create` succeeded, the original is removed
only when everything succeeded. -/
def compressFile (filename : String) (env : OsEnv) : Option GoErr × List FsAct :=
  if hasSuffix filename ".gz" then (none, [])
  else if !env.srcOpenOk then (some (.ioErr "open source"), [])
  else if !env.createOk then (some (.ioErr "create"), [])
  else if !env.copyOk then (some (.ioErr "copy"), [.createA (filename ++ ".gz")])
  else if !env.removeGzOk then (some (.ioErr "remove"), [.createA (filename ++ ".gz")])
  else (none, [.createA (filename ++ ".gz"), .removeA filename])

/-- The comparison `cleanup` sorts by: modification time.  Go's
`sort.Slice(files, func(i,j) { return files[i].modTime.Before(files[j].modTime) })`
is an unspecified comparison sort; it is modelled by `List.insertionSort`
with the corresponding non-strict order — every property proved below
depends only on the result being a permutation sorted by modification
time, which any correct comparison sort guarantees. -/
def byModTime (a b : FileInfo) : Prop := a.modTime ≤ b.modTime

instance : DecidableRel byModTime := fun a b => Int.decLe a.modTime b.modTime

instance : IsTotal FileInfo byModTime := ⟨fun a b => Int.le_total a.modTime b.modTime⟩

instance : IsTrans FileInfo byModTime := ⟨fun _ _ _ h h' => le_trans h h'⟩

/-- `sort.Slice(files, ...)` in `cleanup`. -/
def sortByModTime (files : List FileInfo) : List FileInfo :=
  List.insertionSort byModTime files

/-- `cleanup`: glob for `{base}-*{ext}*` next to the configured path
(`env.globResult`; `none` models `filepath.Glob` returning an error, the
only error path of the function), stat each match (failed stats are
skipped), sort by modification time ascending, then delete by age (older
than `now - maxAge`) and by count (the first `len(files) - maxBackups`
entries of the sorted list when `len(files) > maxBackups`).  `os.Remove`
errors are ignored; a failed removal simply leaves no trace entry.  Note
the count pass uses the length of the full sorted list, including entries
the age pass already removed. -/
def cleanup (s : RotatorState) (env : OsEnv) : Option GoErr × List FsAct :=
  match env.globResult with
  | none => (some (.ioErr "glob"), [])
  | some ms =>
    let files := sortByModTime
      (ms.filterMap fun m => (env.statResult m).map fun t => FileInfo.mk m t)
    let cutoff := env.cleanupNow - s.maxAge
    let ageActs := (files.filter fun f => decide (f.modTime < cutoff)).filterMap
      fun f => if env.removeOk f.path then some (FsAct.removeA f.path) else none
    let countActs :=
      if (files.length : Int) > s.maxBackups then
        ((files.take ((files.length : Int) - s.maxBackups).toNat).filterMap
          fun f => if env.removeOk f.path then some (FsAct.removeA f.path) else none)
      else []
    (none, ageActs ++ countActs)

/-- `rotate`: the rotation cycle.  With no handle, just open.  Otherwise
close (a failure aborts with the wrapped error), rename to the generated
name (a failure aborts), compress when enabled (a failure aborts with the
wrapped error), clean up (a failure aborts with the wrapped error), and
finally reopen the active path. -/
def rotate (s : RotatorState) (env : OsEnv) : RotatorState × Option GoErr × List FsAct :=
  match s.file with
  | none => openFile s env
  | some f =>
    let c := closeHandle f env
    let s1 := { s with file := some c.1 }
    match c.2.1 with
    | some e => (s1, some (.closeFailed e), c.2.2)
    | none =>
      let rotatedName := generateRotatedName s.filePath env.nameTime
      if rotatedName = "" then (s1, some .badName, c.2.2)
      else if !env.renameOk then (s1, some (.renameFailed (.ioErr "rename")), c.2.2)
      else
        let tr1 := c.2.2 ++ [.renameA s.filePath rotatedName]
        let comp := if s.compress then compressFile rotatedName env else (none, [])
        match comp.1 with
        | some e => (s1, some (.compressFailed e), tr1 ++ comp.2)
        | none =>
          let cl := cleanup s1 env
          match cl.1 with
          | some e => (s1, some (.cleanupFailed e), tr1 ++ comp.2 ++ cl.2)
          | none =>
            let o := openFile s1 env
            (o.1, o.2.1, tr1 ++ comp.2 ++ cl.2 ++ o.2.2)

/-- `checkRotation`: when daily rotation is enabled and the current day is
strictly after the stored reference day, rotate; only on success advance
the reference day and return (skipping the size check).  Otherwise rotate
when the tracked size has reached the ceiling. -/
def checkRotation (s : RotatorState) (env : OsEnv) : RotatorState × Option GoErr × List FsAct :=
  if s.rotateDaily && decide (env.nowDay > s.rotateTime) then
    let r := rotate s env
    match r.2.1 with
    | some e => (r.1, some e, r.2.2)
    | none => ({ r.1 with rotateTime := env.nowDay }, none, r.2.2)
  else if decide (s.fileSize ≥ s.maxSize) then rotate s env
  else (s, none, [])

/-- `Write`: check rotation (abandoning the write on a rotation error),
then `lr.file.Write(p)`.  A nil handle returns `os.ErrInvalid` (Go's
behaviour of `os.File` methods on a nil receiver), a closed handle returns
`os.ErrClosed` deterministically without touching the file.  On a write
error the byte count returned by the underlying write is passed through
and the tracked size is left alone; on success `lr.fileSize += n`.
`p` is the requested length; `env.writeN` is what the underlying write
reports as actually written. -/
def Write (s : RotatorState) (env : OsEnv) (p : Nat) :
    RotatorState × Nat × Option GoErr × List FsAct :=
  let cr := checkRotation s env
  match cr.2.1 with
  | some e => (cr.1, 0, some e, cr.2.2)
  | none =>
    match cr.1.file with
    | none => (cr.1, 0, some .errInvalid, cr.2.2)
    | some f =>
      if f.closed then (cr.1, 0, some .errClosed, cr.2.2)
      else
        match env.writeErr with
        | some werr => (cr.1, env.writeN, some werr, cr.2.2 ++ [.writeA env.writeN])
        | none =>
          ({ cr.1 with fileSize := cr.1.fileSize + (env.writeN : Int) }, env.writeN, none,
            cr.2.2 ++ [.writeA env.writeN])

/-- `Close`: close the handle if there is one (`lr.file != nil`) and
return the result of `lr.file.Close()`; the `file` field is never reset
to `nil` and no closed flag is recorded on the rotator itself. -/
def Close (s : RotatorState) (env : OsEnv) : RotatorState × Option GoErr × List FsAct :=
  match s.file with
  | none => (s, none, [])
  | some f =>
    let c := closeHandle f env
    ({ s with file := some c.1 }, c.2.1, c.2.2)

/-- `Rotate`: the exported manual trigger; takes the lock and runs
`rotate` unconditionally. -/
def Rotate (s : RotatorState) (env : OsEnv) : RotatorState × Option GoErr × List FsAct :=
  rotate s env

/-- The snapshot `GetStats` returns (the `map[string]interface{}` fields,
as a record). -/
structure Stats where
  filePath : String
  fileSize : Int
  maxSize : Int
  maxAge : Int
  maxBackups : Int
  compress : Bool
  rotateDaily : Bool
  rotateTime : Int
  fileOpen : Bool
deriving Repr, DecidableEq

/-- `GetStats`: `stats["file_open"] = (lr.file != nil)`. -/
def GetStats (s : RotatorState) : Stats :=
  { filePath := s.filePath, fileSize := s.fileSize, maxSize := s.maxSize,
    maxAge := s.maxAge, maxBackups := s.maxBackups, compress := s.compress,
    rotateDaily := s.rotateDaily, rotateTime := s.rotateTime,
    fileOpen := s.file.isSome }

/-- The `MaxAge` default: `7 * 24 * time.Hour` in nanoseconds. -/
def defaultMaxAge : Int := 604800000000000

/-- The `MaxSize` default: `100 * 1024 * 1024`. -/
def defaultMaxSize : Int := 104857600

/-- `NewLogRotator`: reject an empty path, apply defaults to zero-valued
`MaxSize`/`MaxAge`/`MaxBackups`, create the directory, then open the file
(initializing the tracked size from its current size).  `rotateTime` is
`time.Now().Truncate(24*time.Hour)`. -/
def NewLogRotator (c : LogRotatorConfig) (env : OsEnv) : Except GoErr RotatorState :=
  if c.filePath = "" then .error .configErr
  else
    let maxSize := if c.maxSize = 0 then defaultMaxSize else c.maxSize
    let maxAge := if c.maxAge = 0 then defaultMaxAge else c.maxAge
    let maxBackups := if c.maxBackups = 0 then 5 else c.maxBackups
    if !env.mkdirOk then .error .mkdirFailed
    else
      let s0 : RotatorState :=
        { filePath := c.filePath, maxSize := maxSize, maxAge := maxAge,
          maxBackups := maxBackups, compress := c.compress,
          rotateDaily := c.rotateDaily, rotateTime := env.nowDay,
          file := none, fileSize := 0 }
      let o := openFile s0 env
      match o.2.1 with
      | some e => .error e
      | none => .ok o.1

/-! ## Helper lemmas -/

theorem extFromRev_of_no_dot (l : List Char) (acc : List Char)
    (h : ∀ c ∈ l, c ≠ '.') : extFromRev acc l = [] := by
  induction l generalizing acc with
  | nil => rfl
  | cons c rest ih =>
    have hc : c ≠ '.' := h c (List.mem_cons_self c rest)
    have hrest : ∀ x ∈ rest, x ≠ '.' := fun x hx => h x (List.mem_cons_of_mem c hx)
    unfold extFromRev
    by_cases hsl : c = '/'
    · simp [hsl]
    · simp [hsl, hc, ih _ hrest]

theorem extFromRev_append_dot (l : List Char) (acc rest : List Char)
    (h : ∀ c ∈ l, c ≠ '/' ∧ c ≠ '.') :
    extFromRev acc (l ++ '.' :: rest) = '.' :: (l.reverse ++ acc) := by
  induction l generalizing acc with
  | nil => simp [extFromRev]
  | cons c l' ih =>
    have hc := h c (List.mem_cons_self c l')
    have hl' : ∀ x ∈ l', x ≠ '/' ∧ x ≠ '.' := fun x hx => h x (List.mem_cons_of_mem c hx)
    show extFromRev acc (c :: (l' ++ '.' :: rest)) = _
    unfold extFromRev
    simp only [hc.1, hc.2, if_false, ih (c :: acc) hl', List.reverse_cons, List.append_assoc,
      List.singleton_append]

theorem goExt_no_dot (p : String) (h : ∀ c ∈ p.data, c ≠ '.') : goExt p = "" := by
  have : ∀ c ∈ p.data.reverse, c ≠ '.' := fun c hc => h c (List.mem_reverse.mp hc)
  simp [goExt, extFromRev_of_no_dot _ _ this]

theorem goExt_append_dot (pre eb : String)
    (h : ∀ c ∈ eb.data, c ≠ '/' ∧ c ≠ '.') :
    goExt (pre ++ "." ++ eb) = "." ++ eb := by
  have hrev : ∀ c ∈ eb.data.reverse, c ≠ '/' ∧ c ≠ '.' :=
    fun c hc => h c (List.mem_reverse.mp hc)
  apply String.ext
  have hdata : (pre ++ "." ++ eb).data = pre.data ++ '.' :: eb.data := by
    simp [String.data_append]
  have hrevdata : (pre ++ "." ++ eb).data.reverse = eb.data.reverse ++ '.' :: pre.data.reverse := by
    rw [hdata]
    simp [List.reverse_append]
  show extFromRev [] (pre ++ "." ++ eb).data.reverse = _
  rw [hrevdata, extFromRev_append_dot _ _ _ hrev]
  simp [String.data_append]

theorem hasSuffix_append (pre suf : String) : hasSuffix (pre ++ suf) suf = true := by
  simp only [hasSuffix, String.data_append, Bool.and_eq_true, decide_eq_true_eq]
  constructor
  · simp [List.length_append]
  · have : pre.data.length + suf.data.length - suf.data.length = pre.data.length := by omega
    simp [List.length_append, this, List.drop_left]

theorem trimSuffix_append (pre suf : String) : trimSuffix (pre ++ suf) suf = pre := by
  unfold trimSuffix
  rw [hasSuffix_append]
  simp only [if_true, String.data_append, List.length_append]
  have : pre.data.length + suf.data.length - suf.data.length = pre.data.length := by omega
  apply String.ext
  simp [this, List.take_left]

theorem trimSuffix_empty (s : String) : trimSuffix s "" = s := by
  have h : s = s ++ "" := by
    apply String.ext
    simp [String.data_append]
  calc trimSuffix s "" = trimSuffix (s ++ "") "" := by rw [← h]
    _ = s := trimSuffix_append s ""

theorem generateRotatedName_ne_empty (p : String) (t : DateTime) :
    generateRotatedName p t ≠ "" := by
  intro h
  have hd := congrArg String.data h
  simp [generateRotatedName, String.data_append] at hd

/-- The count of successful renames in a trace (each one is one retired
active file, i.e. one completed rename step of a rotation cycle). -/
def countRenames (tr : List FsAct) : Nat :=
  tr.countP fun a => match a with | .renameA _ _ => true | _ => false

theorem countRenames_append (a b : List FsAct) :
    countRenames (a ++ b) = countRenames a + countRenames b :=
  List.countP_append _ a b

theorem countRenames_compressFile (fn : String) (env : OsEnv) :
    countRenames (compressFile fn env).2 = 0 := by
  unfold compressFile
  split <;> try rfl
  split <;> try rfl
  split <;> try rfl
  split <;> try rfl
  split <;> rfl

theorem countRenames_cleanup (s : RotatorState) (env : OsEnv) :
    countRenames (cleanup s env).2 = 0 := by
  unfold cleanup
  cases hg : env.globResult with
  | none => rfl
  | some ms =>
    simp only [countRenames, List.countP_eq_zero]
    intro a ha
    simp only [List.mem_append, List.mem_filterMap] at ha
    rcases ha with ⟨f, _, hf⟩ | ha
    · split at hf
      · cases hf; simp
      · cases hf
    · split at ha
      · simp only [List.mem_filterMap] at ha
        rcases ha with ⟨f, _, hf⟩
        split at hf
        · cases hf; simp
        · cases hf
      · cases ha

theorem countRenames_openFile (s : RotatorState) (env : OsEnv) :
    countRenames (openFile s env).2.2 = 0 := by
  unfold openFile
  cases env.openResult <;> rfl

theorem countRenames_closeHandle (f : FileHandle) (env : OsEnv) :
    countRenames (closeHandle f env).2.2 = 0 := by
  unfold closeHandle
  split <;> try rfl
  split <;> rfl

theorem countRenames_nil : countRenames [] = 0 := rfl

theorem countRenames_rename_one (src dst : String) :
    countRenames [FsAct.renameA src dst] = 1 := rfl

theorem countRenames_cons_rename (src dst : String) (tr : List FsAct) :
    countRenames (FsAct.renameA src dst :: tr) = countRenames tr + 1 := by
  simp [countRenames, List.countP_cons]

/-- One `rotate` call performs at most one rename (retires at most one
active file). -/
theorem countRenames_rotate (s : RotatorState) (env : OsEnv) :
    countRenames (rotate s env).2.2 ≤ 1 := by
  unfold rotate
  cases hf : s.file with
  | none => simp [countRenames_openFile]
  | some f =>
    simp only
    cases hc : (closeHandle f env).2.1 with
    | some e => simp [countRenames_closeHandle f env]
    | none =>
      simp only
      split
      · simp [countRenames_closeHandle f env]
      · split
        · simp [countRenames_closeHandle f env]
        · split
          · split
            · simp [countRenames_append, countRenames_cons_rename, countRenames_closeHandle,
                countRenames_rename_one, countRenames_compressFile, countRenames_nil]
            · simp [countRenames_append, countRenames_cons_rename, countRenames_closeHandle,
                countRenames_rename_one, countRenames_nil]
          · split
            · split
              · simp [countRenames_append, countRenames_cons_rename, countRenames_closeHandle,
                  countRenames_rename_one, countRenames_compressFile,
                  countRenames_cleanup, countRenames_nil]
              · simp [countRenames_append, countRenames_cons_rename, countRenames_closeHandle,
                  countRenames_rename_one, countRenames_cleanup, countRenames_nil]
            · split
              · simp [countRenames_append, countRenames_cons_rename, countRenames_closeHandle,
                  countRenames_rename_one, countRenames_compressFile,
                  countRenames_cleanup, countRenames_openFile, countRenames_nil]
              · simp [countRenames_append, countRenames_cons_rename, countRenames_closeHandle,
                  countRenames_rename_one, countRenames_cleanup,
                  countRenames_openFile, countRenames_nil]

/-- `rotate` never changes the daily reference day. -/
theorem rotate_rotateTime (s : RotatorState) (env : OsEnv) :
    (rotate s env).1.rotateTime = s.rotateTime := by
  unfold rotate openFile
  cases s.file with
  | none => cases env.openResult <;> rfl
  | some f =>
    simp only
    cases (closeHandle f env).2.1 with
    | some e => rfl
    | none =>
      simp only
      split
      · rfl
      · split
        · rfl
        · split
          · rfl
          · split
            · rfl
            · cases env.openResult <;> rfl

theorem compressFile_no_openA (fn pa : String) (env : OsEnv) :
    FsAct.openA pa ∉ (compressFile fn env).2 := by
  unfold compressFile
  split
  · simp
  · split
    · simp
    · split
      · simp
      · split
        · simp
        · split <;> simp

theorem cleanup_no_openA (s : RotatorState) (pa : String) (env : OsEnv) :
    FsAct.openA pa ∉ (cleanup s env).2 := by
  unfold cleanup
  cases env.globResult with
  | none => simp
  | some ms =>
    intro ha
    simp only [List.mem_append, List.mem_filterMap] at ha
    rcases ha with ⟨f, _, hf⟩ | ha
    · split at hf <;> cases hf
    · split at ha
      · simp only [List.mem_filterMap] at ha
        rcases ha with ⟨f, _, hf⟩
        split at hf <;> cases hf
      · cases ha

/-- `cleanup` reads only the configuration fields of the state, never the
file handle. -/
theorem cleanup_file_irrel (s : RotatorState) (x : Option FileHandle) (env : OsEnv) :
    cleanup { s with file := x } env = cleanup s env := rfl

/-! ## Concrete fixtures used by witnesses and counterexamples -/

/-- A filesystem environment in which every operation succeeds: the glob
finds nothing, opening the active file reports size `0`, writes append
everything they are asked to (`writeN = 0` for a zero-length record). -/
def envAllOk : OsEnv :=
  { nowDay := 1, nameTime := ⟨2025, 1, 2, 3, 4, 5⟩, cleanupNow := 1000,
    closeOk := true, renameOk := true, srcOpenOk := true, createOk := true,
    copyOk := true, removeGzOk := true, globResult := some [],
    statResult := fun _ => none, removeOk := fun _ => true,
    openResult := some 0, writeN := 0, writeErr := none, mkdirOk := true }

/-- A rotator on `"app.log"` with an open handle, compression enabled,
daily rotation disabled, 50 of 100 bytes used. -/
def sOpen : RotatorState :=
  { filePath := "app.log", maxSize := 100, maxAge := 604800000000000,
    maxBackups := 5, compress := true, rotateDaily := false, rotateTime := 0,
    file := some ⟨false⟩, fileSize := 50 }

/-! ## C1 — compression failure and the rotation cycle -/

/-- C1, counterexample to the claim as stated: with compression enabled
and every step up to compression succeeding, a compression failure (the
source open fails) makes `rotate` return the wrapped compression error
*without* reopening the active file — the writer is left with a closed
handle and the trace contains no open action, so the writer is not OPEN
after the cycle and cannot accept new writes. -/
theorem compressFailure_aborts_cycle_cex :
    (rotate sOpen { envAllOk with srcOpenOk := false }).2.1
        = some (GoErr.compressFailed (GoErr.ioErr "open source"))
      ∧ (rotate sOpen { envAllOk with srcOpenOk := false }).1.file = some ⟨true⟩
      ∧ FsAct.openA "app.log" ∉ (rotate sOpen { envAllOk with srcOpenOk := false }).2.2 := by
  refine ⟨by decide, by decide, by decide⟩

/-- C1, amended: for every rotation cycle in which compression is enabled
and the compression step fails (after a successful close and rename), the
cycle is *aborted*: the compression error is returned wrapped, the active
file is not reopened (no open action occurs), and the writer is left
holding a closed handle. -/
theorem compressFailure_aborts_cycle (s : RotatorState) (env : OsEnv)
    (f : FileHandle) (e : GoErr)
    (hf : s.file = some f) (hfc : f.closed = false)
    (hclose : env.closeOk = true) (hren : env.renameOk = true)
    (hcomp : s.compress = true)
    (hfail : (compressFile (generateRotatedName s.filePath env.nameTime) env).1 = some e) :
    (rotate s env).2.1 = some (GoErr.compressFailed e)
      ∧ (rotate s env).1.file = some ⟨true⟩
      ∧ FsAct.openA s.filePath ∉ (rotate s env).2.2 := by
  have hname := generateRotatedName_ne_empty s.filePath env.nameTime
  unfold rotate
  rw [hf]
  simp only [closeHandle, hfc, hclose, Bool.false_eq_true, if_false, if_true, hcomp,
    hname, hren, Bool.not_true, hfail]
  refine ⟨trivial, trivial, ?_⟩
  intro hmem
  simp only [List.mem_append, List.mem_cons, List.not_mem_nil, or_false] at hmem
  rcases hmem with ((h | h) | h)
  · exact FsAct.noConfusion h
  · exact FsAct.noConfusion h
  · exact compressFile_no_openA _ _ _ h

/-- C1 witness: the amended theorem applied to the concrete fixture. -/
theorem compressFailure_aborts_cycle_witness :
    sOpen.file = some ⟨false⟩ ∧ sOpen.compress = true
      ∧ (compressFile (generateRotatedName sOpen.filePath
            ({ envAllOk with srcOpenOk := false } : OsEnv).nameTime)
            { envAllOk with srcOpenOk := false }).1 = some (GoErr.ioErr "open source")
      ∧ ((rotate sOpen { envAllOk with srcOpenOk := false }).2.1
            = some (GoErr.compressFailed (GoErr.ioErr "open source"))
          ∧ (rotate sOpen { envAllOk with srcOpenOk := false }).1.file = some ⟨true⟩
          ∧ FsAct.openA sOpen.filePath
              ∉ (rotate sOpen { envAllOk with srcOpenOk := false }).2.2) :=
  ⟨rfl, rfl, by decide,
    compressFailure_aborts_cycle sOpen { envAllOk with srcOpenOk := false }
      ⟨false⟩ (GoErr.ioErr "open source") rfl rfl rfl rfl rfl (by decide)⟩

/-! ## C2 — cleanup position in the cycle and cleanup failures -/

/-- C2, counterexample to the claim as stated: a cleanup failure (the glob
returns an error) aborts the rotation cycle *before* the active file is
reopened: `rotate` returns the wrapped cleanup error, no open action is in
the trace, and the writer is left with a closed handle — so the rotation
cycle does not leave a fresh open active file. -/
theorem cleanupFailure_no_reopen_cex :
    (rotate sOpen { envAllOk with globResult := none }).2.1
        = some (GoErr.cleanupFailed (GoErr.ioErr "glob"))
      ∧ (rotate sOpen { envAllOk with globResult := none }).1.file = some ⟨true⟩
      ∧ FsAct.openA "app.log" ∉ (rotate sOpen { envAllOk with globResult := none }).2.2 :=
  ⟨by decide, by decide, by decide⟩

/-- C2, amended: the retention cleanup step runs *before* the active file
is reopened, and a cleanup failure aborts the cycle, leaving the writer
without an open active file.  First conjunct: on a cleanup error the
wrapped error is returned, the handle stays closed, and no reopen happens.
Second conjunct: on a successful cycle the trace is close, rename, the
cleanup deletions, and only then the reopen — cleanup precedes the
reopen.  (Compression disabled to isolate the cleanup step.) -/
theorem cleanup_before_reopen (s : RotatorState) (env : OsEnv) (f : FileHandle)
    (hf : s.file = some f) (hfc : f.closed = false)
    (hclose : env.closeOk = true) (hren : env.renameOk = true)
    (hcomp : s.compress = false) :
    (∀ e, (cleanup s env).1 = some e →
        (rotate s env).2.1 = some (GoErr.cleanupFailed e)
          ∧ (rotate s env).1.file = some ⟨true⟩
          ∧ FsAct.openA s.filePath ∉ (rotate s env).2.2)
      ∧ (∀ sz, (cleanup s env).1 = none → env.openResult = some sz →
          (rotate s env).2.1 = none
            ∧ (rotate s env).1.file = some ⟨false⟩
            ∧ (rotate s env).2.2
                = [FsAct.closeA,
                    FsAct.renameA s.filePath (generateRotatedName s.filePath env.nameTime)]
                  ++ (cleanup s env).2 ++ [FsAct.openA s.filePath]) := by
  have hname := generateRotatedName_ne_empty s.filePath env.nameTime
  have hclfix :
      cleanup { s with compress := false, file := some (⟨true⟩ : FileHandle) } env
        = cleanup s env := rfl
  constructor
  · intro e he
    unfold rotate
    rw [hf]
    simp only [closeHandle, hfc, hclose, Bool.false_eq_true, if_false, if_true, hcomp,
      hname, hren, Bool.not_true, hclfix, he]
    refine ⟨trivial, trivial, ?_⟩
    intro hmem
    simp only [List.mem_append, List.mem_cons, List.not_mem_nil, or_false] at hmem
    rcases hmem with ((h | h) | h)
    · exact FsAct.noConfusion h
    · exact FsAct.noConfusion h
    · exact cleanup_no_openA _ _ _ h
  · intro sz he hop
    unfold rotate
    rw [hf]
    simp only [closeHandle, hfc, hclose, Bool.false_eq_true, if_false, if_true, hcomp,
      hname, hren, Bool.not_true, hclfix, he, openFile, hop]
    exact ⟨trivial, trivial, by simp⟩

/-- C2 witness: the amended theorem at concrete inputs — a glob failure
aborts before the reopen, and on success the reopen is the last action,
after the cleanup. -/
theorem cleanup_before_reopen_witness :
    ((rotate { sOpen with compress := false } { envAllOk with globResult := none }).2.1
        = some (GoErr.cleanupFailed (GoErr.ioErr "glob"))
      ∧ (rotate { sOpen with compress := false }
          { envAllOk with globResult := none }).1.file = some ⟨true⟩
      ∧ FsAct.openA ({ sOpen with compress := false } : RotatorState).filePath
          ∉ (rotate { sOpen with compress := false } { envAllOk with globResult := none }).2.2)
    ∧ ((rotate { sOpen with compress := false } envAllOk).2.1 = none
      ∧ (rotate { sOpen with compress := false } envAllOk).1.file = some ⟨false⟩
      ∧ (rotate { sOpen with compress := false } envAllOk).2.2
          = [FsAct.closeA,
              FsAct.renameA ({ sOpen with compress := false } : RotatorState).filePath
                (generateRotatedName ({ sOpen with compress := false } : RotatorState).filePath
                  (envAllOk : OsEnv).nameTime)]
            ++ (cleanup { sOpen with compress := false } envAllOk).2
            ++ [FsAct.openA ({ sOpen with compress := false } : RotatorState).filePath]) :=
  ⟨(cleanup_before_reopen { sOpen with compress := false }
      { envAllOk with globResult := none } ⟨false⟩ rfl rfl rfl rfl rfl).1
      (GoErr.ioErr "glob") (by decide),
    (cleanup_before_reopen { sOpen with compress := false } envAllOk
      ⟨false⟩ rfl rfl rfl rfl rfl).2 0 (by decide) rfl⟩

/-! ## C3 — `MaxSize = 0` -/

/-- The state `NewLogRotator` produces for an all-defaults configuration on
`"app.log"` when the freshly opened file already holds 100 MiB. -/
def sBig : RotatorState :=
  { filePath := "app.log", maxSize := 104857600, maxAge := 604800000000000,
    maxBackups := 5, compress := false, rotateDaily := false, rotateTime := 1,
    file := some ⟨false⟩, fileSize := 104857600 }

/-- C3, counterexample to the claim as stated: a writer constructed with
`MaxSize = 0` (daily rotation disabled) receives the 100 MiB *default*
rather than having size-triggered rotation disabled; once the tracked
size reaches the default ceiling, a write does trigger a rotation (the
trace of the write contains one rename and the write succeeds). -/
theorem maxSizeZero_rotates_cex :
    NewLogRotator ⟨"app.log", 0, 0, 0, false, false⟩
        { envAllOk with openResult := some 104857600, writeN := 1 } = Except.ok sBig
      ∧ countRenames (Write sBig { envAllOk with openResult := some 104857600, writeN := 1 }
          1).2.2.2 = 1
      ∧ (Write sBig { envAllOk with openResult := some 104857600, writeN := 1 } 1).2.2.1
          = none := by
  refine ⟨by rfl, by decide, by decide⟩

/-- C3, amended: `MaxSize = 0` does not disable size-triggered rotation;
`NewLogRotator` replaces it with the 100 MiB default, and the size trigger
fires (the write performs a rotation cycle) as soon as the tracked size
reaches that default.  First conjunct: the constructed state carries
`defaultMaxSize`.  Second conjunct: with daily rotation disabled, any
state whose tracked size has reached its ceiling rotates on
`checkRotation`. -/
theorem maxSizeZero_gets_default (cfg : LogRotatorConfig) (env : OsEnv) (sz : Int)
    (hp : ¬cfg.filePath = "") (h0 : cfg.maxSize = 0)
    (hmk : env.mkdirOk = true) (hop : env.openResult = some sz) :
    NewLogRotator cfg env
        = Except.ok
            { filePath := cfg.filePath, maxSize := defaultMaxSize,
              maxAge := if cfg.maxAge = 0 then defaultMaxAge else cfg.maxAge,
              maxBackups := if cfg.maxBackups = 0 then 5 else cfg.maxBackups,
              compress := cfg.compress, rotateDaily := cfg.rotateDaily,
              rotateTime := env.nowDay, file := some ⟨false⟩, fileSize := sz }
      ∧ (∀ s : RotatorState, s.rotateDaily = false → s.fileSize ≥ s.maxSize →
          checkRotation s env = rotate s env) := by
  constructor
  · unfold NewLogRotator
    simp only [hp, if_false, h0, if_true, hmk, Bool.not_true, Bool.false_eq_true, openFile, hop]
  · intro s hd hsz
    unfold checkRotation
    simp [hd, hsz]

/-- C3 witness: the amended theorem at the concrete fixture. -/
theorem maxSizeZero_gets_default_witness :
    NewLogRotator ⟨"app.log", 0, 0, 0, false, false⟩
        { envAllOk with openResult := some 104857600, writeN := 1 }
        = Except.ok
            { filePath := "app.log", maxSize := defaultMaxSize,
              maxAge := if (0 : Int) = 0 then defaultMaxAge else 0,
              maxBackups := if (0 : Int) = 0 then 5 else 0,
              compress := false, rotateDaily := false, rotateTime := 1,
              file := some ⟨false⟩, fileSize := 104857600 }
      ∧ checkRotation sBig { envAllOk with openResult := some 104857600, writeN := 1 }
          = rotate sBig { envAllOk with openResult := some 104857600, writeN := 1 } :=
  ⟨(maxSizeZero_gets_default ⟨"app.log", 0, 0, 0, false, false⟩
      { envAllOk with openResult := some 104857600, writeN := 1 } 104857600
      (by decide) rfl rfl rfl).1,
    (maxSizeZero_gets_default ⟨"app.log", 0, 0, 0, false, false⟩
      { envAllOk with openResult := some 104857600, writeN := 1 } 104857600
      (by decide) rfl rfl rfl).2 sBig rfl (by decide)⟩

/-! ## Further helper lemmas for `Write`/`Close` -/

/-- `checkRotation` is a no-op when daily rotation is disabled and the
tracked size is below the ceiling. -/
theorem checkRotation_noop (s : RotatorState) (env : OsEnv)
    (hd : s.rotateDaily = false) (hsz : s.fileSize < s.maxSize) :
    checkRotation s env = (s, none, []) := by
  unfold checkRotation
  simp [hd, not_le.mpr hsz]

/-- After `Close` on a state that holds a handle, the state is unchanged
except that the handle is (still referenced and) closed. -/
theorem Close_state (s : RotatorState) (env : OsEnv) (f : FileHandle)
    (hf : s.file = some f) :
    (Close s env).1 = { s with file := some ⟨true⟩ } := by
  unfold Close closeHandle
  rw [hf]
  cases f with
  | mk c =>
    cases c
    · simp only [Bool.false_eq_true, if_false]
      split <;> rfl
    · rfl

/-- `true` exactly when an error is present and rooted in `os.ErrClosed`. -/
def optClosedRooted : Option GoErr → Bool
  | some e => e.isClosedRooted
  | none => false

/-- `rotate` on a state whose handle is already closed fails immediately at
the close step with `os.ErrClosed`, changing nothing and performing no
filesystem action. -/
theorem rotate_on_closed (s : RotatorState) (env : OsEnv)
    (h : s.file = some ⟨true⟩) :
    rotate s env = (s, some (GoErr.closeFailed GoErr.errClosed), []) := by
  obtain ⟨fp, ms, ma, mb, cp, rd, rt, fl, fs⟩ := s
  simp only at h
  subst h
  rfl

/-- `Write` on a state whose handle is already closed returns zero bytes
written, an error rooted in `os.ErrClosed`, and performs no filesystem
action (in particular it appends nothing to any file). -/
theorem write_on_closed (s : RotatorState) (env : OsEnv) (p : Nat)
    (h : s.file = some ⟨true⟩) :
    (Write s env p).1 = s ∧ (Write s env p).2.1 = 0
      ∧ optClosedRooted (Write s env p).2.2.1 = true
      ∧ (Write s env p).2.2.2 = [] := by
  have hrot := rotate_on_closed s env
  unfold Write checkRotation
  split
  · rw [hrot h]
    exact ⟨rfl, rfl, rfl, rfl⟩
  · split
    · rw [hrot h]
      exact ⟨rfl, rfl, rfl, rfl⟩
    · simp only [h]
      exact ⟨rfl, rfl, rfl, rfl⟩

/-! ## C4 — partial writes and the tracked byte count -/

/-- C4, counterexample to the claim as stated: on a write that reports 3
bytes written together with an error (10 requested), `Write` returns the
count and the error, but the tracked byte count does *not* advance by the
3 bytes actually written — it does not advance at all (it stays at 50). -/
theorem partialWrite_count_cex :
    (Write { sOpen with compress := false }
        { envAllOk with writeN := 3, writeErr := some (GoErr.ioErr "disk") } 10).2.1 = 3
      ∧ (Write { sOpen with compress := false }
          { envAllOk with writeN := 3, writeErr := some (GoErr.ioErr "disk") } 10).2.2.1
          = some (GoErr.ioErr "disk")
      ∧ (Write { sOpen with compress := false }
          { envAllOk with writeN := 3, writeErr := some (GoErr.ioErr "disk") } 10).2.2.2
          = [FsAct.writeA 3]
      ∧ (Write { sOpen with compress := false }
          { envAllOk with writeN := 3, writeErr := some (GoErr.ioErr "disk") } 10).1.fileSize
          = 50
      ∧ ((50 : Int) ≠ 50 + 3) :=
  ⟨by decide, by decide, by decide, by decide, by decide⟩

/-- C4, amended: a partially failed write is surfaced as the returned
count plus the underlying error, matching stream semantics — but the
tracked byte count does not advance at all when an error is returned (the
`fileSize += n` line is skipped); it advances, by the full reported
count, only on a fully successful write.  (Rotation triggers disabled so
the call reaches the file write; `env.writeN ≤ p` is the underlying
writer's partial-write contract.) -/
theorem partialWrite_count (s : RotatorState) (env : OsEnv) (p : Nat)
    (hd : s.rotateDaily = false) (hsz : s.fileSize < s.maxSize)
    (hf : s.file = some ⟨false⟩) (hn : env.writeN ≤ p) :
    (∀ e, env.writeErr = some e →
        Write s env p = (s, env.writeN, some e, [FsAct.writeA env.writeN]))
      ∧ (env.writeErr = none →
        Write s env p
          = ({ s with fileSize := s.fileSize + (env.writeN : Int) }, env.writeN, none,
              [FsAct.writeA env.writeN])) := by
  have hcr := checkRotation_noop s env hd hsz
  constructor
  · intro e he
    unfold Write
    rw [hcr]
    simp only [hf, Bool.false_eq_true, if_false, he, List.nil_append]
  · intro he
    unfold Write
    rw [hcr]
    simp only [hf, Bool.false_eq_true, if_false, he, List.nil_append]

/-- C4 witness: the amended theorem at the concrete fixture (3 of 10
bytes written with an error; and a fully successful 7-byte write). -/
theorem partialWrite_count_witness :
    Write { sOpen with compress := false }
        { envAllOk with writeN := 3, writeErr := some (GoErr.ioErr "disk") } 10
        = ({ sOpen with compress := false }, 3, some (GoErr.ioErr "disk"), [FsAct.writeA 3])
      ∧ Write { sOpen with compress := false } { envAllOk with writeN := 7 } 7
        = ({ sOpen with compress := false, fileSize := 50 + (7 : Int) }, 7, none,
            [FsAct.writeA 7]) :=
  ⟨(partialWrite_count { sOpen with compress := false }
      { envAllOk with writeN := 3, writeErr := some (GoErr.ioErr "disk") } 10
      rfl (by decide) rfl (by decide)).1 (GoErr.ioErr "disk") rfl,
    (partialWrite_count { sOpen with compress := false }
      { envAllOk with writeN := 7 } 7 rfl (by decide) rfl (by decide)).2 rfl⟩

/-! ## C5 — writes after `Close` -/

/-- C5, confirmed: every `Write` made after `Close` has returned fails
deterministically — whatever the environment does and whichever rotation
triggers fire, the returned error is `os.ErrClosed` or a wrapper around
it (an operation on the explicitly closed handle), zero bytes are
reported written, the state is unchanged, and no filesystem action
happens at all, so no bytes are appended to any file. -/
theorem write_after_close_fails (s : RotatorState) (env1 env2 : OsEnv) (p : Nat)
    (f : FileHandle) (hf : s.file = some f) :
    (Write (Close s env1).1 env2 p).1 = (Close s env1).1
      ∧ (Write (Close s env1).1 env2 p).2.1 = 0
      ∧ optClosedRooted (Write (Close s env1).1 env2 p).2.2.1 = true
      ∧ (Write (Close s env1).1 env2 p).2.2.2 = [] := by
  have hcs := Close_state s env1 f hf
  have hfile : (Close s env1).1.file = some ⟨true⟩ := by rw [hcs]
  exact write_on_closed (Close s env1).1 env2 p hfile

/-- C5 witness: the theorem at the concrete fixture, with an environment
that would happily let a write succeed — it still fails with a
closed-file error and appends nothing. -/
theorem write_after_close_fails_witness :
    (Write (Close sOpen envAllOk).1 { envAllOk with writeN := 4 } 4).1
        = (Close sOpen envAllOk).1
      ∧ (Write (Close sOpen envAllOk).1 { envAllOk with writeN := 4 } 4).2.1 = 0
      ∧ optClosedRooted
          (Write (Close sOpen envAllOk).1 { envAllOk with writeN := 4 } 4).2.2.1 = true
      ∧ (Write (Close sOpen envAllOk).1 { envAllOk with writeN := 4 } 4).2.2.2 = [] :=
  write_after_close_fails sOpen envAllOk { envAllOk with writeN := 4 } 4 ⟨false⟩ rfl

/-! ## C6 — `Rotate` with no open file / after `Close` -/

/-- C6, counterexample to the claim as stated: after an explicit `Close`
the rotator still holds a (closed) handle, so `Rotate` is *not* equivalent
to opening a fresh file — it attempts a full cycle, fails at the close
step with `os.ErrClosed`, opens nothing and performs no filesystem
action. -/
theorem rotate_after_close_cex :
    (Rotate (Close sOpen envAllOk).1 envAllOk).2.1
        = some (GoErr.closeFailed GoErr.errClosed)
      ∧ (Rotate (Close sOpen envAllOk).1 envAllOk).1.file = some ⟨true⟩
      ∧ (Rotate (Close sOpen envAllOk).1 envAllOk).2.2 = [] :=
  ⟨by decide, by decide, by decide⟩

/-- C6, amended: `Rotate` is equivalent to opening a fresh active file
only when the handle field is nil (`lr.file == nil`) — the first conjunct:
in that case it just runs `openFile`, with no rename and no cleanup.  But
after an explicit `Close` the handle field is still non-nil (it holds the
closed handle), so `Rotate` attempts a full cycle and fails at the close
step with `os.ErrClosed`, opening nothing — the second conjunct. -/
theorem rotate_nil_vs_after_close (s : RotatorState) (env1 env2 : OsEnv)
    (f : FileHandle) (hf : s.file = some f) :
    (∀ s' : RotatorState, s'.file = none → Rotate s' env2 = openFile s' env2)
      ∧ Rotate (Close s env1).1 env2
          = ((Close s env1).1, some (GoErr.closeFailed GoErr.errClosed), []) := by
  constructor
  · intro s' h
    unfold Rotate rotate
    rw [h]
  · have hcs := Close_state s env1 f hf
    have hfile : (Close s env1).1.file = some ⟨true⟩ := by rw [hcs]
    exact rotate_on_closed (Close s env1).1 env2 hfile

/-- C6 witness: the amended theorem at concrete fixtures (a nil-handle
state on one side, the closed fixture on the other). -/
theorem rotate_nil_vs_after_close_witness :
    Rotate { sOpen with file := none } envAllOk
        = openFile { sOpen with file := none } envAllOk
      ∧ Rotate (Close sOpen envAllOk).1 envAllOk
          = ((Close sOpen envAllOk).1, some (GoErr.closeFailed GoErr.errClosed), []) :=
  ⟨(rotate_nil_vs_after_close sOpen envAllOk envAllOk ⟨false⟩ rfl).1
      { sOpen with file := none } rfl,
    (rotate_nil_vs_after_close sOpen envAllOk envAllOk ⟨false⟩ rfl).2⟩

/-! ## C7 — the daily trigger -/

theorem countRenames_writeA (n : Nat) : countRenames [FsAct.writeA n] = 0 := rfl

theorem countRenames_checkRotation (s : RotatorState) (env : OsEnv) :
    countRenames (checkRotation s env).2.2 ≤ 1 := by
  have h := countRenames_rotate s env
  unfold checkRotation
  split
  · cases hr : (rotate s env).2.1 with
    | some e => simp only [hr]; exact h
    | none => simp only [hr]; exact h
  · split
    · exact h
    · simp [countRenames_nil]

theorem countRenames_Write (s : RotatorState) (env : OsEnv) (p : Nat) :
    countRenames (Write s env p).2.2.2 ≤ 1 := by
  have h := countRenames_checkRotation s env
  unfold Write
  cases hc : (checkRotation s env).2.1 with
  | some e => simp only [hc]; exact h
  | none =>
    simp only [hc]
    cases hf : (checkRotation s env).1.file with
    | none => simp only [hf]; exact h
    | some f =>
      simp only [hf]
      cases hcl : f.closed with
      | true => simp only [if_true]; exact h
      | false =>
        simp only [Bool.false_eq_true, if_false]
        cases hw : env.writeErr with
        | some e => simpa [countRenames_append, countRenames_writeA] using h
        | none => simpa [countRenames_append, countRenames_writeA] using h

/-- C7, confirmed: with daily rotation enabled, (i) when the current day
is strictly after the stored reference day the daily trigger fires and
the call is exactly one `rotate` cycle — on success the reference day is
advanced to the new day afterwards, on failure the error is returned with
the reference day left unchanged (so the next write retries); the size
check is not consulted in either case; (ii) when the current day is not
strictly after the reference day, the daily trigger does not fire and
only the size check decides; (iii) a `Write` call never performs more
than one rename, i.e. at most one rotation cycle runs per `Write` even
when both triggers would fire. -/
theorem dailyTrigger_characterization (s : RotatorState) (env : OsEnv)
    (hd : s.rotateDaily = true) :
    (env.nowDay > s.rotateTime →
        ((rotate s env).2.1 = none →
            checkRotation s env
              = ({ (rotate s env).1 with rotateTime := env.nowDay }, none, (rotate s env).2.2))
          ∧ (∀ e, (rotate s env).2.1 = some e →
              checkRotation s env = ((rotate s env).1, some e, (rotate s env).2.2)
                ∧ (checkRotation s env).1.rotateTime = s.rotateTime))
      ∧ (¬env.nowDay > s.rotateTime →
          checkRotation s env
            = if s.fileSize ≥ s.maxSize then rotate s env else (s, none, []))
      ∧ (∀ p, countRenames (Write s env p).2.2.2 ≤ 1) := by
  refine ⟨?_, ?_, fun p => countRenames_Write s env p⟩
  · intro hgt
    have hb : (s.rotateDaily && decide (env.nowDay > s.rotateTime)) = true := by
      simp [hd, hgt]
    constructor
    · intro hok
      unfold checkRotation
      simp only [hb, eq_self_iff_true, if_true, hok]
    · intro e he
      constructor
      · unfold checkRotation
        simp only [hb, eq_self_iff_true, if_true, he]
      · unfold checkRotation
        simp only [hb, eq_self_iff_true, if_true, he]
        exact rotate_rotateTime s env
  · intro hle
    have hb : (s.rotateDaily && decide (env.nowDay > s.rotateTime)) = false := by
      simp [hle]
    unfold checkRotation
    simp only [hb, Bool.false_eq_true, if_false]
    split
    · rename_i hsz
      rw [if_pos (by simpa using hsz)]
    · rename_i hsz
      rw [if_neg (by simpa using hsz)]

/-- C7 witness: the characterization applied at concrete inputs — a
successful daily rotation advances the reference day to the new day, a
failed one (rename fails) leaves it unchanged, a same-day call falls
through to the size check, and a concrete `Write` performs at most one
rename. -/
theorem dailyTrigger_characterization_witness :
    checkRotation { sOpen with compress := false, rotateDaily := true } envAllOk
        = ({ (rotate { sOpen with compress := false, rotateDaily := true } envAllOk).1 with
              rotateTime := (envAllOk : OsEnv).nowDay }, none,
            (rotate { sOpen with compress := false, rotateDaily := true } envAllOk).2.2)
      ∧ (checkRotation { sOpen with compress := false, rotateDaily := true }
            { envAllOk with renameOk := false }).1.rotateTime
          = ({ sOpen with compress := false, rotateDaily := true } : RotatorState).rotateTime
      ∧ checkRotation { sOpen with compress := false, rotateDaily := true }
            { envAllOk with nowDay := 0 }
          = (if ({ sOpen with compress := false, rotateDaily := true } : RotatorState).fileSize
                ≥ ({ sOpen with compress := false, rotateDaily := true } : RotatorState).maxSize
            then rotate { sOpen with compress := false, rotateDaily := true }
                  { envAllOk with nowDay := 0 }
            else ({ sOpen with compress := false, rotateDaily := true }, none, []))
      ∧ countRenames
          (Write { sOpen with compress := false, rotateDaily := true } envAllOk 0).2.2.2 ≤ 1 :=
  ⟨((dailyTrigger_characterization { sOpen with compress := false, rotateDaily := true }
      envAllOk rfl).1 (by decide)).1 (by decide),
    (((dailyTrigger_characterization { sOpen with compress := false, rotateDaily := true }
      { envAllOk with renameOk := false } rfl).1 (by decide)).2
      (GoErr.renameFailed (GoErr.ioErr "rename")) (by decide)).2,
    ((dailyTrigger_characterization { sOpen with compress := false, rotateDaily := true }
      { envAllOk with nowDay := 0 } rfl).2.1 (by decide)),
    ((dailyTrigger_characterization { sOpen with compress := false, rotateDaily := true }
      envAllOk rfl).2.2 0)⟩

/-! ## C8 — retention count bound -/

theorem filterMap_all_some {α β : Type} (f : α → Option β) (g : α → β) (l : List α)
    (h : ∀ x ∈ l, f x = some (g x)) : l.filterMap f = l.map g := by
  induction l with
  | nil => rfl
  | cons a l ih =>
    rw [List.filterMap_cons, h a (List.mem_cons_self a l), List.map_cons,
      ih fun x hx => h x (List.mem_cons_of_mem a hx)]

/-- The `FileInfo` list `cleanup` builds from glob matches `ms`. -/
def statted (env : OsEnv) (ms : List String) : List FileInfo :=
  ms.filterMap fun m => (env.statResult m).map fun t => FileInfo.mk m t

theorem statted_path_mem (env : OsEnv) (ms : List String) (f : FileInfo)
    (hf : f ∈ statted env ms) : f.path ∈ ms := by
  simp only [statted, List.mem_filterMap] at hf
  obtain ⟨m, hm, hmap⟩ := hf
  cases ht : env.statResult m with
  | none => rw [ht] at hmap; cases hmap
  | some t =>
    rw [ht] at hmap
    cases hmap
    exact hm

/-- C8, confirmed: with max backups `K ≥ 0`, when the glob finds more
than `K` rotated files, each of them stats successfully, none is older
than the age cutoff, and every deletion succeeds, `cleanup` returns no
error and deletes exactly the oldest `len - K` entries of the
modification-time-sorted listing; hence exactly `K` files remain, they
are among the files actually found on disk, and every deleted file is at
most as recent as every remaining one — the survivors are the `K` most
recently modified. -/
theorem cleanup_count_bound (s : RotatorState) (env : OsEnv) (ms : List String)
    (hg : env.globResult = some ms)
    (hstat : ∀ m ∈ ms, (env.statResult m).isSome = true)
    (hage : ∀ f ∈ statted env ms, ¬f.modTime < env.cleanupNow - s.maxAge)
    (hrem : ∀ m ∈ ms, env.removeOk m = true)
    (hK : 0 ≤ s.maxBackups)
    (hcount : (ms.length : Int) > s.maxBackups) :
    (cleanup s env).1 = none
      ∧ (cleanup s env).2
          = (((sortByModTime (statted env ms)).take
              (ms.length - s.maxBackups.toNat)).map fun f => FsAct.removeA f.path)
      ∧ ((sortByModTime (statted env ms)).drop
          (ms.length - s.maxBackups.toNat)).length = s.maxBackups.toNat
      ∧ (∀ x ∈ (sortByModTime (statted env ms)).take (ms.length - s.maxBackups.toNat),
          ∀ y ∈ (sortByModTime (statted env ms)).drop (ms.length - s.maxBackups.toNat),
            x.modTime ≤ y.modTime)
      ∧ (sortByModTime (statted env ms)).Perm (statted env ms) := by
  have hperm : (sortByModTime (statted env ms)).Perm (statted env ms) :=
    List.perm_insertionSort byModTime (statted env ms)
  have hsorted : (sortByModTime (statted env ms)).Pairwise byModTime :=
    List.sorted_insertionSort byModTime (statted env ms)
  have hstatlen : (statted env ms).length = ms.length := by
    rw [statted, filterMap_all_some _
      (fun m => FileInfo.mk m ((env.statResult m).getD 0)) ms ?_, List.length_map]
    intro m hm
    cases ht : env.statResult m with
    | none => exact absurd (hstat m hm) (by rw [ht]; simp)
    | some t => simp [ht]
  have hlen : (sortByModTime (statted env ms)).length = ms.length :=
    hperm.length_eq.trans hstatlen
  have hmemstat : ∀ f ∈ sortByModTime (statted env ms), f ∈ statted env ms :=
    fun f hf => hperm.mem_iff.mp hf
  have hfilter : (sortByModTime (statted env ms)).filter
      (fun f => decide (f.modTime < env.cleanupNow - s.maxAge)) = [] := by
    rw [List.filter_eq_nil_iff]
    intro f hf
    simpa using hage f (hmemstat f hf)
  have hKle : s.maxBackups.toNat ≤ ms.length := by omega
  have htoNat : ((ms.length : Int) - s.maxBackups).toNat
      = ms.length - s.maxBackups.toNat := by omega
  have hcleanup : cleanup s env
      = (none, ((sortByModTime (statted env ms)).take
          (ms.length - s.maxBackups.toNat)).map fun f => FsAct.removeA f.path) := by
    unfold cleanup
    simp only [hg]
    rw [show (ms.filterMap fun m => (env.statResult m).map fun t => FileInfo.mk m t)
        = statted env ms from rfl]
    rw [hfilter]
    simp only [List.filterMap_nil, List.nil_append]
    rw [if_pos (by rw [hlen]; exact hcount), hlen, htoNat]
    congr 1
    apply filterMap_all_some
    intro f hf
    have hfm : f ∈ statted env ms :=
      hmemstat f (List.mem_of_mem_take hf)
    rw [if_pos (hrem f.path (statted_path_mem env ms f hfm))]
  refine ⟨by rw [hcleanup], by rw [hcleanup], ?_, ?_, hperm⟩
  · rw [List.length_drop, hlen]
    omega
  · have := (List.pairwise_append.mp
      (by rw [List.take_append_drop (ms.length - s.maxBackups.toNat)
            (sortByModTime (statted env ms))]
          exact hsorted)).2.2
    intro x hx y hy
    exact this x hx y hy

/-- The cleanup fixture: four rotated files, max backups 2, max age 1000
with "now" at 2000, so nothing is age-expired; every stat and removal
succeeds. -/
def cleanEnv : OsEnv :=
  { envAllOk with
    cleanupNow := 2000,
    globResult := some ["a", "b", "c", "d"],
    statResult := fun m =>
      if m = "a" then some 1500 else if m = "b" then some 1400
      else if m = "c" then some 1600 else some 1450 }

/-- The rotator fixture for cleanup: max age 1000, max backups 2. -/
def sClean : RotatorState := { sOpen with maxAge := 1000, maxBackups := 2 }

/-- C8 witness: the count-bound theorem at the concrete fixture (4 files,
K = 2: the two oldest are deleted, the two newest remain). -/
theorem cleanup_count_bound_witness :
    (cleanup sClean cleanEnv).1 = none
      ∧ (cleanup sClean cleanEnv).2
          = (((sortByModTime (statted cleanEnv ["a", "b", "c", "d"])).take
              ((["a", "b", "c", "d"] : List String).length - sClean.maxBackups.toNat)).map
              fun f => FsAct.removeA f.path)
      ∧ ((sortByModTime (statted cleanEnv ["a", "b", "c", "d"])).drop
          ((["a", "b", "c", "d"] : List String).length - sClean.maxBackups.toNat)).length
          = sClean.maxBackups.toNat
      ∧ (∀ x ∈ (sortByModTime (statted cleanEnv ["a", "b", "c", "d"])).take
            ((["a", "b", "c", "d"] : List String).length - sClean.maxBackups.toNat),
          ∀ y ∈ (sortByModTime (statted cleanEnv ["a", "b", "c", "d"])).drop
            ((["a", "b", "c", "d"] : List String).length - sClean.maxBackups.toNat),
            x.modTime ≤ y.modTime)
      ∧ (sortByModTime (statted cleanEnv ["a", "b", "c", "d"])).Perm
          (statted cleanEnv ["a", "b", "c", "d"]) :=
  cleanup_count_bound sClean cleanEnv ["a", "b", "c", "d"] rfl (by decide) (by decide)
    (by decide) (by decide) (by decide)

/-! ## C9 — rotated file naming -/

theorem string_append_assoc (a b c : String) : a ++ b ++ c = a ++ (b ++ c) :=
  String.ext (by simp [String.data_append])

/-- C9, counterexample to the claim as stated: when the configured path's
own extension is `.gz` (path `"app.gz"`), the rotated name already ends in
`".gz"`, so `compressFile` silently skips: with compression enabled and
every filesystem call willing to succeed, *no* `.gz` file is created (no
`.gz` is appended to the rotated name) and the rotated file is left as
produced by the rename. -/
theorem rotatedName_gz_skip_cex :
    generateRotatedName "app.gz" ⟨2025, 1, 2, 3, 4, 5⟩ = "app-2025-01-02-030405.gz"
      ∧ compressFile "app-2025-01-02-030405.gz" envAllOk = (none, [])
      ∧ FsAct.createA ("app-2025-01-02-030405.gz" ++ ".gz")
          ∉ (compressFile "app-2025-01-02-030405.gz" envAllOk).2 :=
  ⟨by decide, by decide, by decide⟩

/-- C9, amended: the rotated name is exactly the configured path with the
timestamp inserted before its last dot-delimited extension —
`{base}-{YYYY-MM-DD-HHMMSS}{ext}`, the suffix simply appended when the
path has no extension — and when compression is enabled `.gz` is appended
to that name (the `.gz` file is created and the uncompressed rotated file
removed) *unless* the rotated name already ends in `.gz` (which happens
exactly when the configured path's extension is `.gz`), in which case
compression is skipped entirely and no `.gz` is appended. -/
theorem rotatedName_spec :
    (∀ (pre eb : String) (t : DateTime), (∀ c ∈ eb.data, c ≠ '/' ∧ c ≠ '.') →
        generateRotatedName (pre ++ "." ++ eb) t
          = pre ++ "-" ++ formatTimestamp t ++ "." ++ eb)
      ∧ (∀ (p : String) (t : DateTime), (∀ c ∈ p.data, c ≠ '.') →
          generateRotatedName p t = p ++ "-" ++ formatTimestamp t)
      ∧ (∀ (fn : String) (env : OsEnv), hasSuffix fn ".gz" = false →
          env.srcOpenOk = true → env.createOk = true → env.copyOk = true →
          env.removeGzOk = true →
          compressFile fn env
            = (none, [FsAct.createA (fn ++ ".gz"), FsAct.removeA fn]))
      ∧ (∀ (fn : String) (env : OsEnv), hasSuffix fn ".gz" = true →
          compressFile fn env = (none, [])) := by
  refine ⟨?_, ?_, ?_, ?_⟩
  · intro pre eb t h
    unfold generateRotatedName
    simp only [goExt_append_dot pre eb h]
    simp only [string_append_assoc pre "." eb, trimSuffix_append]
    apply String.ext
    simp [String.data_append]
  · intro p t h
    unfold generateRotatedName
    simp only [goExt_no_dot p h, trimSuffix_empty]
    apply String.ext
    simp [String.data_append]
  · intro fn env h h1 h2 h3 h4
    unfold compressFile
    rw [h]
    simp [h1, h2, h3, h4]
  · intro fn env h
    unfold compressFile
    rw [h]
    simp

/-- C9 witness: the naming and compression behaviour at concrete inputs —
a path with an extension, a path without one, a compressible rotated
name, and one already ending in `.gz`. -/
theorem rotatedName_spec_witness :
    generateRotatedName ("logs/app" ++ "." ++ "log") ⟨2025, 1, 2, 3, 4, 5⟩
        = "logs/app" ++ "-" ++ formatTimestamp ⟨2025, 1, 2, 3, 4, 5⟩ ++ "." ++ "log"
      ∧ generateRotatedName "applog" ⟨2025, 1, 2, 3, 4, 5⟩
          = "applog" ++ "-" ++ formatTimestamp ⟨2025, 1, 2, 3, 4, 5⟩
      ∧ compressFile "app-2025-01-02-030405.log" envAllOk
          = (none, [FsAct.createA ("app-2025-01-02-030405.log" ++ ".gz"),
              FsAct.removeA "app-2025-01-02-030405.log"])
      ∧ compressFile "app-2025-01-02-030405.gz" envAllOk = (none, []) :=
  ⟨rotatedName_spec.1 "logs/app" "log" ⟨2025, 1, 2, 3, 4, 5⟩ (by decide),
    rotatedName_spec.2.1 "applog" ⟨2025, 1, 2, 3, 4, 5⟩ (by decide),
    rotatedName_spec.2.2.1 "app-2025-01-02-030405.log" envAllOk (by decide)
      rfl rfl rfl rfl,
    rotatedName_spec.2.2.2 "app-2025-01-02-030405.gz" envAllOk (by decide)⟩

/-! ## C10 — `Close` is not idempotent -/

/-- `Close` on a state whose handle is already closed returns
`os.ErrClosed`, changing nothing. -/
theorem Close_on_closed (s' : RotatorState) (env : OsEnv)
    (h : s'.file = some ⟨true⟩) :
    Close s' env = (s', some GoErr.errClosed, []) := by
  obtain ⟨fp, ms2, ma, mb, cp, rd, rt, fl, fs⟩ := s'
  simp only at h
  subst h
  rfl

/-- C10, confirmed: after a successful `Close`, the rotator still holds a
non-nil (now closed) handle; a second `Close` therefore returns
`os.ErrClosed` rather than nil (not idempotent), and `GetStats` keeps
reporting `file_open = true`. -/
theorem close_not_idempotent (s : RotatorState) (env1 env2 : OsEnv) (f : FileHandle)
    (hf : s.file = some f) (hfc : f.closed = false) (hok : env1.closeOk = true) :
    (Close s env1).2.1 = none
      ∧ (Close s env1).1.file = some ⟨true⟩
      ∧ (Close (Close s env1).1 env2).2.1 = some GoErr.errClosed
      ∧ (Close (Close s env1).1 env2).1 = (Close s env1).1
      ∧ (GetStats (Close s env1).1).fileOpen = true := by
  have hcs := Close_state s env1 f hf
  have hfile : (Close s env1).1.file = some ⟨true⟩ := by rw [hcs]
  have h2 := Close_on_closed (Close s env1).1 env2 hfile
  refine ⟨?_, hfile, by rw [h2], by rw [h2], ?_⟩
  · unfold Close
    rw [hf]
    simp [closeHandle, hfc, hok]
  · unfold GetStats
    rw [hfile]
    rfl

/-- C10 witness: the theorem at the concrete fixture. -/
theorem close_not_idempotent_witness :
    (Close sOpen envAllOk).2.1 = none
      ∧ (Close sOpen envAllOk).1.file = some ⟨true⟩
      ∧ (Close (Close sOpen envAllOk).1 envAllOk).2.1 = some GoErr.errClosed
      ∧ (Close (Close sOpen envAllOk).1 envAllOk).1 = (Close sOpen envAllOk).1
      ∧ (GetStats (Close sOpen envAllOk).1).fileOpen = true :=
  close_not_idempotent sOpen envAllOk envAllOk ⟨false⟩ rfl rfl rfl

end Panlog
